import Mathlib

/-!
Verification of the Stryke interpreter core (`StrykeCore.py`) against its
natural-language specification.

The embedding below translates the source file's data model and operations:

* `Value` is the universe of Stryke runtime values (integers, strings,
  booleans, the host `None`, references to built-in functions, and opaque
  host objects for the global registry's module/package dictionaries).
  Host floats are outside the model; operations whose Python result is a
  float are embedded as errors and are exercised by no claim.
* `Expr` mirrors the host `ast` expression nodes that `eval_ast` dispatches
  on; constructs `eval_ast` rejects (attribute access, subscripting,
  lambdas, comprehensions) are explicit constructors.
* `St` is the process-wide mutable state: `env["vars"]`, `env["funcs"]`,
  the module-level `global_env`, and the debugger globals `_single_step`,
  `_step_over_depth`, `_call_depth`, `_breakpoints`.  Python dicts become
  association lists with in-place update (`alistSet`).  Two extra fields
  are observation traces: `output` records `stryprint` emissions and
  `pauses` records each debugger pause; `debugActions` is the queue of
  debugger commands the interactive prompt would read (the prompt blocks
  on host input, so the embedding reads from this queue instead).
* The statement classifier's regexes are translated into character-list
  matchers (`matchStryset`, `matchKeywordRest`, `matchDef`,
  `matchCondHeader`); each is annotated with the regex it embeds,
  including the greedy/lazy capture behaviour at the edges.
* Host recursion is modelled with a fuel parameter; every recursive call
  consumes one unit, and exhaustion is the distinguished `Outcome.fuel`
  (never produced in any theorem below at the fuels used).
* `ast.parse(text, mode="eval")` is the host parser; it enters the
  embedding as an oracle parameter `parse : String → Option Expr`.
  Concrete theorems instantiate it with a fixture that records exactly
  what the host parser yields on the strings involved.
-/

/-- Stryke runtime values (the Python values the interpreter produces). -/
inductive Value where
  | int (n : Int)
  | str (s : String)
  | bool (b : Bool)
  | none
  | builtin (fname : String)
  | obj (tag : String)
deriving Repr, DecidableEq

/-- Binary operators appearing in `_ops` (the `ast.BinOp` keys). -/
inductive BinOp where
  | add | sub | mul | div | mod | pow
deriving Repr, DecidableEq

/-- Unary operators appearing in `_ops` (`ast.UAdd`, `ast.USub`). -/
inductive UnOp where
  | uadd | usub
deriving Repr, DecidableEq

/-- Comparison operators appearing in `_ops` (the `ast.Compare` op keys). -/
inductive CmpOp where
  | eq | ne | lt | le | gt | ge
deriving Repr, DecidableEq

/-- Host `ast` expression nodes as dispatched by `eval_ast`.  `expression`
is the `ast.Expression` wrapper produced by `mode="eval"`; `lambdaE` and
`listComp` stand for the lambda/comprehension nodes the evaluator rejects
via its final catch-all. -/
inductive Expr where
  | expression (body : Expr)
  | const (v : Value)
  | binop (op : BinOp) (left right : Expr)
  | unaryop (op : UnOp) (operand : Expr)
  | boolop (isAnd : Bool) (values : List Expr)
  | compare (left : Expr) (pairs : List (CmpOp × Expr))
  | name (id : String)
  | call (func : Expr) (args : List Expr)
  | attributeE (value : Expr) (attr : String)
  | subscript (value index : Expr)
  | lambdaE
  | listComp

/-- The three-way control signal `execute_line` produces: Python `None`
(continue), an `int` jump target, or a `ReturnSignal` value. -/
inductive Signal where
  | noneSig
  | jump (target : Nat)
  | ret (v : Value)
deriving Repr, DecidableEq

/-- Result of running embedded code: success, a raised host exception
(carrying its message), or exhaustion of the recursion fuel (an artifact
of the embedding, not of the source). -/
inductive Outcome (α : Type) where
  | ok : α → Outcome α
  | err : String → Outcome α
  | fuel : Outcome α
deriving Repr, DecidableEq

/-- Association-list update with Python-dict semantics: an existing key is
updated in place, a new key is appended at the end. -/
def alistSet {α : Type} : List (String × α) → String → α → List (String × α)
  | [], k, v => [(k, v)]
  | (k', v') :: rest, k, v =>
    if k' = k then (k, v) :: rest else (k', v') :: alistSet rest k v

/-- Association-list lookup (Python dict `in`/`[]`). -/
def alistGet {α : Type} : List (String × α) → String → Option α
  | [], _ => Option.none
  | (k', v') :: rest, k => if k' = k then some v' else alistGet rest k

/-- A user function as stored in `env["funcs"]`: parameter names and the
raw body lines captured by `parse_block`. -/
abbrev FuncDef := List String × List String

/-- Process-wide interpreter state: `env`, `global_env` and the debugger
globals, plus the observation traces described in the header comment. -/
structure St where
  vars : List (String × Value)
  funcs : List (String × FuncDef)
  globals : List (String × Value)
  single_step : Bool
  step_over_depth : Option Nat
  call_depth : Nat
  bpLines : List Nat
  bpPairs : List (String × Nat)
  output : List Value
  pauses : List (String × Nat)
  debugActions : List String
deriving Repr, DecidableEq

/-- The state at process start: empty `env`, the two registry keys of
`global_env`, debugger off. -/
def initSt : St :=
  { vars := []
    funcs := []
    globals := [("__modules__", Value.obj "__modules__"), ("__packages__", Value.obj "__packages__")]
    single_step := false
    step_over_depth := Option.none
    call_depth := 0
    bpLines := []
    bpPairs := []
    output := []
    pauses := []
    debugActions := [] }

/-- Python `\s` / `str.strip()` whitespace (ASCII range). -/
def isWS (c : Char) : Bool :=
  c = ' ' || c = '\t' || c = '\n' || c = '\r' || c = '\x0b' || c = '\x0c'

/-- Python `\w`: ASCII alphanumerics and underscore. -/
def isWordChar (c : Char) : Bool :=
  c.isAlphanum || c = '_'

/-- `str.strip()` on a character list. -/
def pyStripL (cs : List Char) : List Char :=
  ((cs.dropWhile isWS).reverse.dropWhile isWS).reverse

/-- `str.strip()`.  (`execute_line` first does `line.rstrip("\n")` and then
`.strip()`; since `\n` is itself stripped whitespace the composition equals
a single strip, so the embedding keeps one.) -/
def pyStrip (s : String) : String :=
  String.mk (pyStripL s.toList)

/-- `stripped.startswith("#")`. -/
def startsHash (s : String) : Bool :=
  match s.toList with
  | '#' :: _ => true
  | _ => false

/-- The quoted-literal test of `safe_eval`:
`(t.startswith('"') and t.endswith('"')) or (t.startswith("'") and t.endswith("'"))`.
As in Python, a single-character quote string passes the test. -/
def isQuoted (t : String) : Bool :=
  match t.toList, t.toList.reverse with
  | c :: _, d :: _ => (c = '"' && d = '"') || (c = '\'' && d = '\'')
  | _, _ => false

/-- `expr_text[1:-1]`. -/
def stripQuotes (t : String) : String :=
  String.mk ((t.toList.drop 1).dropLast)

/-- Match a literal prefix, returning the remainder (the regex-literal part
of each pattern). -/
def dropLit : List Char → List Char → Option (List Char)
  | [], cs => some cs
  | _ :: _, [] => Option.none
  | l :: ls, c :: cs => if c = l then dropLit ls cs else Option.none

/-- Capture of `\s*(.+)` over a bracketed content run: the leading `\s*`
is greedy, so the capture is the content minus leading whitespace; on an
all-whitespace run the `\s*` backs off one character so `(.+)` captures
exactly the final character. `Option.none` when the run is empty (`(.+)`
needs a character). -/
def innerExpr (content : List Char) : Option (List Char) :=
  match content.dropWhile isWS with
  | [] =>
    match content.reverse with
    | [] => Option.none
    | c :: _ => some [c]
  | t => some t

/-- Capture of `...(\s*)(.+)\s*\)\s*$`: the final non-whitespace character
must be `)`; everything before it is the content run (the `\s*` before `)`
matches empty because `(.+)` is greedy). -/
def tailParen (cs : List Char) : Option (List Char) :=
  match cs.reverse.dropWhile isWS with
  | ')' :: rest => innerExpr rest.reverse
  | _ => Option.none

/-- Embeds `re.match(r'^\s*stryset\s+(\w+)\s*\(\s*(.+)\s*\)\s*$', s)`,
returning the `(name, expression)` captures. -/
def matchStryset (s : String) : Option (String × String) :=
  match dropLit "stryset".toList (s.toList.dropWhile isWS) with
  | Option.none => Option.none
  | some r1 =>
    if r1.takeWhile isWS = [] then Option.none
    else
      let r2 := r1.dropWhile isWS
      let nm := r2.takeWhile isWordChar
      if nm = [] then Option.none
      else
        match (r2.drop nm.length).dropWhile isWS with
        | '(' :: r4 => (tailParen r4).map (fun e => (String.mk nm, String.mk e))
        | _ => Option.none

/-- Embeds the common shape of
`re.match(r'^\s*stryprint\s+(.+)$', s)` and
`re.match(r'^\s*return\s+(.+)$', s)`: a keyword, at least one whitespace
character, then a greedy capture running to the end of the line.  When the
remainder is all whitespace the greedy `\s+` backs off one character so
`(.+)` captures exactly the final whitespace character (hence the
remainder must have at least two characters). -/
def matchKeywordRest (kw : String) (s : String) : Option String :=
  match dropLit kw.toList (s.toList.dropWhile isWS) with
  | Option.none => Option.none
  | some r =>
    if r.takeWhile isWS = [] then Option.none
    else
      match r.dropWhile isWS with
      | [] =>
        match r.reverse with
        | [] => Option.none
        | c :: _ => if 2 ≤ r.length then some (String.mk [c]) else Option.none
      | body => some (String.mk body)

/-- The suffix test `\s*:\s*$`. -/
def colonTail (cs : List Char) : Bool :=
  match cs.dropWhile isWS with
  | ':' :: r => (r.dropWhile isWS) = []
  | _ => false

/-- Capture of the lazy `(.*?)\)\s*:\s*$` in the `def` pattern: the capture
grows from the left until the first `)` whose suffix is `\s*:\s*$`. -/
def defSplit : List Char → Option (List Char)
  | [] => Option.none
  | c :: rest =>
    if c = ')' && colonTail rest then some []
    else (defSplit rest).map (fun caps => c :: caps)

/-- Embeds `re.match(r'^\s*def\s+(\w+)\s*\((.*?)\)\s*:\s*$', s)`,
returning the `(name, raw parameter text)` captures. -/
def matchDef (s : String) : Option (String × String) :=
  match dropLit "def".toList (s.toList.dropWhile isWS) with
  | Option.none => Option.none
  | some r1 =>
    if r1.takeWhile isWS = [] then Option.none
    else
      let r2 := r1.dropWhile isWS
      let nm := r2.takeWhile isWordChar
      if nm = [] then Option.none
      else
        match (r2.drop nm.length).dropWhile isWS with
        | '(' :: r4 => (defSplit r4).map (fun ps => (String.mk nm, String.mk ps))
        | _ => Option.none

/-- Capture of `\s*(.+)\s*\)\s*:\s*$` after the opening parenthesis of a
condition header: from the right, optional whitespace, `:`, optional
whitespace, `)`, then the content run handed to `innerExpr`. -/
def condSplit (cs : List Char) : Option (List Char) :=
  match cs.reverse.dropWhile isWS with
  | ':' :: r2 =>
    match r2.dropWhile isWS with
    | ')' :: r3 => innerExpr r3.reverse
    | _ => Option.none
  | _ => Option.none

/-- Embeds `re.match(r'^\s*if\s*\(\s*(.+)\s*\)\s*:\s*$', s)` when `kw` is
`"if"` — the source's only condition-header pattern.  The keyword is a
parameter so the specification's `while` opener (absent from the source)
can reuse the same shape where the spec model needs it. -/
def matchCondHeader (kw : String) (s : String) : Option String :=
  match dropLit kw.toList (s.toList.dropWhile isWS) with
  | Option.none => Option.none
  | some r1 =>
    match r1.dropWhile isWS with
    | '(' :: r2 => (condSplit r2).map String.mk
    | _ => Option.none

/-- Python `"...".split(",")`. -/
def splitComma : List Char → List (List Char)
  | [] => [[]]
  | c :: rest =>
    if c = ',' then [] :: splitComma rest
    else
      match splitComma rest with
      | [] => [[c]]
      | g :: gs => (c :: g) :: gs

/-- The parameter-list comprehension of the `def` branch:
`[p.strip() for p in params.split(",") if p.strip()]`. -/
def paramList (params : String) : List String :=
  ((splitComma params.toList).map (fun p => String.mk (pyStripL p))).filter (fun p => p ≠ "")

/-- Python truthiness of the modelled values (`if cond:`, `all`, `any`). -/
def truthy : Value → Bool
  | Value.int n => n ≠ 0
  | Value.str s => s ≠ ""
  | Value.bool b => b
  | Value.none => false
  | Value.builtin _ => true
  | Value.obj _ => true

/-- Numeric view used by Python's arithmetic and ordering: `bool` is an
`int` subtype (`True` is `1`). -/
def toArith : Value → Option Int
  | Value.int n => some n
  | Value.bool b => some (if b then 1 else 0)
  | _ => Option.none

/-- Python `==` on the modelled values: numeric cross-type equality for
int/bool, structural equality for strings and `None`, identity for
built-in references, `False` across kinds. -/
def pyEq (a b : Value) : Bool :=
  match toArith a, toArith b with
  | some m, some n => m == n
  | _, _ =>
    match a, b with
    | Value.str s, Value.str t => s == t
    | Value.none, Value.none => true
    | Value.builtin f, Value.builtin g => f == g
    | Value.obj s, Value.obj t => s == t
    | _, _ => false

/-- Integer comparison table for the six operators. -/
def icmp (op : CmpOp) (m n : Int) : Bool :=
  match op with
  | CmpOp.eq => m == n
  | CmpOp.ne => !(m == n)
  | CmpOp.lt => decide (m < n)
  | CmpOp.le => decide (m ≤ n)
  | CmpOp.gt => decide (n < m)
  | CmpOp.ge => decide (n ≤ m)

/-- String comparison table (Python's lexicographic order). -/
def scmp (op : CmpOp) (s t : String) : Bool :=
  match op with
  | CmpOp.eq => s == t
  | CmpOp.ne => !(s == t)
  | CmpOp.lt => decide (s < t)
  | CmpOp.le => !decide (t < s)
  | CmpOp.gt => decide (t < s)
  | CmpOp.ge => !decide (s < t)

/-- One comparison step `_ops[type(op)](left, right)`: equality always
succeeds; ordering works on numbers (int/bool) and on string pairs and is
a host `TypeError` (`Option.none`) otherwise. -/
def applyCmp (op : CmpOp) (a b : Value) : Option Bool :=
  match op with
  | CmpOp.eq => some (pyEq a b)
  | CmpOp.ne => some (!pyEq a b)
  | _ =>
    match toArith a, toArith b with
    | some m, some n => some (icmp op m n)
    | _, _ =>
      match a, b with
      | Value.str s, Value.str t => some (scmp op s t)
      | _, _ => Option.none

/-- Numeric binary step shared by the arithmetic operators. -/
def arith2 (a b : Value) (k : Int → Int → Outcome Value) (opname : String) : Outcome Value :=
  match toArith a, toArith b with
  | some m, some n => k m n
  | _, _ => Outcome.err ("TypeError: unsupported operand types for " ++ opname)

/-- `_ops` on `ast.BinOp`: `operator.add/sub/mul/truediv/mod/pow`.
True division always yields a host float and is embedded as an error;
`%` is Python's floored modulo (`Int.fmod`); `**` with a negative exponent
yields a host float and is likewise an error.  String concatenation via
`+` is kept; other string/number mixes are host `TypeError`s. -/
def applyBin (op : BinOp) (a b : Value) : Outcome Value :=
  match op with
  | BinOp.add =>
    match toArith a, toArith b with
    | some m, some n => Outcome.ok (Value.int (m + n))
    | _, _ =>
      match a, b with
      | Value.str s, Value.str t => Outcome.ok (Value.str (s ++ t))
      | _, _ => Outcome.err "TypeError: unsupported operand types for +"
  | BinOp.sub => arith2 a b (fun m n => Outcome.ok (Value.int (m - n))) "-"
  | BinOp.mul => arith2 a b (fun m n => Outcome.ok (Value.int (m * n))) "*"
  | BinOp.div => arith2 a b (fun _ _ => Outcome.err "float: true division yields a host float, outside the value model") "/"
  | BinOp.mod => arith2 a b (fun m n =>
      if n = 0 then Outcome.err "ZeroDivisionError: integer division or modulo by zero"
      else Outcome.ok (Value.int (Int.fmod m n))) "%"
  | BinOp.pow => arith2 a b (fun m n =>
      if n < 0 then Outcome.err "float: negative exponent yields a host float, outside the value model"
      else Outcome.ok (Value.int (m ^ n.toNat))) "**"

/-- `_ops` on `ast.UnaryOp`: `operator.pos` / `operator.neg`. -/
def applyUn (op : UnOp) (a : Value) : Outcome Value :=
  match toArith a with
  | some m =>
    match op with
    | UnOp.uadd => Outcome.ok (Value.int m)
    | UnOp.usub => Outcome.ok (Value.int (-m))
  | Option.none => Outcome.err "TypeError: bad operand type for unary operator"

/-- Python `str()` of the modelled values (for the `str` built-in). -/
def pyStr : Value → String
  | Value.int n => toString n
  | Value.str s => s
  | Value.bool b => if b then "True" else "False"
  | Value.none => "None"
  | Value.builtin f => "<built-in " ++ f ++ ">"
  | Value.obj t => "<" ++ t ++ ">"

/-- The keys of the `safe_functions` table. -/
def safeFunctionNames : List String :=
  ["int", "float", "str", "len", "abs", "max", "min", "round",
   "readfile", "writefile", "input"]

/-- The `safe_functions` built-ins on the modelled values.  `float` always
produces a host float (outside the model, embedded as an error);
`readfile`/`writefile`/`input` perform host I/O and are embedded as
errors — no claim exercises them. -/
def applyBuiltin (fname : String) (args : List Value) : Outcome Value :=
  match fname, args with
  | "int", [Value.int n] => Outcome.ok (Value.int n)
  | "int", [Value.bool b] => Outcome.ok (Value.int (if b then 1 else 0))
  | "int", [Value.str s] =>
    match s.toInt? with
    | some n => Outcome.ok (Value.int n)
    | Option.none => Outcome.err "ValueError: invalid literal for int()"
  | "str", [v] => Outcome.ok (Value.str (pyStr v))
  | "len", [Value.str s] => Outcome.ok (Value.int (s.length : Int))
  | "abs", [v] =>
    match toArith v with
    | some m => Outcome.ok (Value.int (if m < 0 then -m else m))
    | Option.none => Outcome.err "TypeError: bad operand type for abs()"
  | "round", [v] =>
    match toArith v with
    | some m => Outcome.ok (Value.int m)
    | Option.none => Outcome.err "TypeError: bad operand type for round()"
  | "max", vs =>
    match vs.mapM toArith with
    | some (n :: ns) => Outcome.ok (Value.int (ns.foldl (fun acc m => if acc < m then m else acc) n))
    | _ => Outcome.err "TypeError: max() arguments outside the model"
  | "min", vs =>
    match vs.mapM toArith with
    | some (n :: ns) => Outcome.ok (Value.int (ns.foldl (fun acc m => if m < acc then m else acc) n))
    | _ => Outcome.err "TypeError: min() arguments outside the model"
  | "float", _ => Outcome.err "float: host floats are outside the value model"
  | "readfile", _ => Outcome.err "host file access is outside the model"
  | "writefile", _ => Outcome.err "host file access is outside the model"
  | "input", _ => Outcome.err "host console input is outside the model"
  | _, _ => Outcome.err "TypeError: built-in arguments outside the model"

/-- `for p, v in zip(params, arg_values): env["vars"][p] = v`. -/
def bindParams (m : List (String × Value)) : List String → List Value → List (String × Value)
  | p :: ps, v :: vs => bindParams (alistSet m p v) ps vs
  | _, _ => m

/-- Embeds `check_debug_pause` (StrykeCore.py line 169-170):
`_single_step or (source_name, lineno) in _breakpoints or lineno in _breakpoints`.
Note the recorded `_step_over_depth` and the current `_call_depth` are not
consulted. -/
def check_debug_pause (source_name : String) (lineno : Nat) (_line_text : String) (st : St) : Bool :=
  st.single_step || st.bpPairs.contains (source_name, lineno) || st.bpLines.contains lineno

/-- Embeds `debug_prompt`: the pause is recorded in the `pauses` trace and
the next queued debugger command is consumed (the real prompt blocks on
host input; an empty queue behaves like the `EOFError` branch and yields
`"continue"`).  The prompt's auxiliary breakpoint/watch/introspection
commands are interactive host I/O and are outside the model; the queue
holds the terminal `continue`/`step`/`next` replies. -/
def debug_prompt (source_name : String) (lineno : Nat) (_line_text : String) (st : St) : String × St :=
  let st1 := {st with pauses := st.pauses ++ [(source_name, lineno)]}
  match st1.debugActions with
  | [] => ("continue", st1)
  | a :: rest => (a, {st1 with debugActions := rest})

/-- Worker for `parse_block`, scanning the remaining lines while tracking
the absolute index. -/
def parseBlockGo : List String → Nat → List String → Except String (List String × Nat)
  | [], _, _ => Except.error "Missing 'end'"
  | ln :: rest, i, block =>
    if pyStrip ln = "end" then Except.ok (block, i)
    else parseBlockGo rest (i + 1) (block ++ [ln])

/-- Embeds `parse_block` (StrykeCore.py lines 159-167): scan forward from
`start_idx`, accumulating lines, and stop at the first line whose stripped
text is `"end"`; raise `SyntaxError("Missing 'end'")` at end of input.
There is no nesting counter in the source. -/
def parse_block (lines : List String) (start_idx : Nat) : Except String (List String × Nat) :=
  parseBlockGo (lines.drop start_idx) start_idx []

/-- Modelled from the spec: the `while (cond):` opener pattern, which the
interpreter source does not contain (`execute_line` has no `while` branch).
The spec's Statement Classifier lists `while-open` alongside `if-open`;
this reuses the source's `if` header shape with the `while` keyword, as
the transpiler's `^while\s*\(\s*(.+)\s*\):\s*$` also does. -/
def matchWhileSpec (s : String) : Option String :=
  matchCondHeader "while" s

/-- Modelled from the spec (§4.3): a line opens a block when it is an
`if`, `while` or `def` statement. -/
def isBlockOpener (s : String) : Bool :=
  (matchCondHeader "if" s).isSome || (matchWhileSpec s).isSome || (matchDef s).isSome

/-- Worker for `parse_block_depth`. -/
def parseBlockDepthGo : List String → Nat → Nat → List String → Except String (List String × Nat)
  | [], _, _, _ => Except.error "UnterminatedBlockError"
  | ln :: rest, i, depth, block =>
    if pyStrip ln = "end" then
      if depth = 1 then Except.ok (block, i)
      else parseBlockDepthGo rest (i + 1) (depth - 1) (block ++ [ln])
    else
      parseBlockDepthGo rest (i + 1) (if isBlockOpener ln then depth + 1 else depth) (block ++ [ln])

/-- Modelled from the spec (§4.3), which mandates behaviour the source's
`parse_block` lacks: scan forward with a nesting counter starting at 1;
each block-opening statement increments it, each `end` decrements it, and
the `end` that brings it to 0 is the matching terminator. -/
def parse_block_depth (lines : List String) (start_idx : Nat) : Except String (List String × Nat) :=
  parseBlockDepthGo (lines.drop start_idx) start_idx 1 []

/-- `lineno = (idx + 1) if idx is not None else 0`. -/
def lineNoOf : Option Nat → Nat
  | some i => i + 1
  | Option.none => 0

section Interpreter

/- Oracle for `ast.parse(text, mode="eval")`: `Option.none` is a host
`SyntaxError` (the `except` branch of `safe_eval`), `some e` the parsed
tree.  Concrete theorems instantiate it with fixtures recording the host
parser's output on the strings involved. -/
variable (parse : String → Option Expr)

mutual

/-- Embeds `eval_ast` (StrykeCore.py lines 77-120).  The deprecated
`ast.Num`/`ast.Str` branches are subsumed by `const` (`ast.Constant`).
The final catch-all `raise ValueError("Unsupported expression type: ...")`
receives the attribute/subscript/lambda/comprehension nodes; a call whose
callee is not a bare name raises `ValueError("Unsupported call expression")`
before its arguments are evaluated. -/
def evalAst : Nat → Expr → St → Outcome Value × St
  | 0, _, st => (Outcome.fuel, st)
  | f + 1, e, st =>
    match e with
    | Expr.expression b => evalAst f b st
    | Expr.const v => (Outcome.ok v, st)
    | Expr.binop op l r =>
      match evalAst f l st with
      | (Outcome.ok lv, st1) =>
        match evalAst f r st1 with
        | (Outcome.ok rv, st2) =>
          match applyBin op lv rv with
          | Outcome.ok v => (Outcome.ok v, st2)
          | Outcome.err m => (Outcome.err m, st2)
          | Outcome.fuel => (Outcome.fuel, st2)
        | other => other
      | other => other
    | Expr.unaryop op o =>
      match evalAst f o st with
      | (Outcome.ok v, st1) =>
        match applyUn op v with
        | Outcome.ok w => (Outcome.ok w, st1)
        | Outcome.err m => (Outcome.err m, st1)
        | Outcome.fuel => (Outcome.fuel, st1)
      | other => other
    | Expr.boolop isAnd vs =>
      match evalListE f vs st with
      | (Outcome.ok values, st1) =>
        (Outcome.ok (Value.bool (if isAnd then values.all truthy else values.any truthy)), st1)
      | (Outcome.err m, st1) => (Outcome.err m, st1)
      | (Outcome.fuel, st1) => (Outcome.fuel, st1)
    | Expr.compare l pairs =>
      match evalAst f l st with
      | (Outcome.ok lv, st1) => evalCompare f lv pairs st1
      | other => other
    | Expr.name idn =>
      match alistGet st.vars idn with
      | some v => (Outcome.ok v, st)
      | Option.none =>
        match alistGet st.globals idn with
        | some v => (Outcome.ok v, st)
        | Option.none =>
          if safeFunctionNames.contains idn then (Outcome.ok (Value.builtin idn), st)
          else (Outcome.err ("Unknown identifier: " ++ idn), st)
    | Expr.call fe args =>
      match fe with
      | Expr.name fname =>
        match evalListE f args st with
        | (Outcome.ok argv, st1) =>
          if (alistGet st1.funcs fname).isSome then callUserFunc f fname argv st1
          else if safeFunctionNames.contains fname then
            match applyBuiltin fname argv with
            | Outcome.ok v => (Outcome.ok v, st1)
            | Outcome.err m => (Outcome.err m, st1)
            | Outcome.fuel => (Outcome.fuel, st1)
          else (Outcome.err ("Unknown function: " ++ fname), st1)
        | (Outcome.err m, st1) => (Outcome.err m, st1)
        | (Outcome.fuel, st1) => (Outcome.fuel, st1)
      | _ => (Outcome.err "Unsupported call expression", st)
    | Expr.attributeE _ _ => (Outcome.err "Unsupported expression type", st)
    | Expr.subscript _ _ => (Outcome.err "Unsupported expression type", st)
    | Expr.lambdaE => (Outcome.err "Unsupported expression type", st)
    | Expr.listComp => (Outcome.err "Unsupported expression type", st)

/-- The list comprehensions `[eval_ast(v) for v in node.values]` /
`[eval_ast(a) for a in node.args]`: left-to-right evaluation, first raise
propagates. -/
def evalListE : Nat → List Expr → St → Outcome (List Value) × St
  | 0, _, st => (Outcome.fuel, st)
  | _ + 1, [], st => (Outcome.ok [], st)
  | f + 1, e :: rest, st =>
    match evalAst f e st with
    | (Outcome.ok v, st1) =>
      match evalListE f rest st1 with
      | (Outcome.ok vs, st2) => (Outcome.ok (v :: vs), st2)
      | (Outcome.err m, st2) => (Outcome.err m, st2)
      | (Outcome.fuel, st2) => (Outcome.fuel, st2)
    | (Outcome.err m, st1) => (Outcome.err m, st1)
    | (Outcome.fuel, st1) => (Outcome.fuel, st1)

/-- The `ast.Compare` loop of `eval_ast`: each comparator is evaluated,
the pair is tested, a failing pair returns `False` at once (later
comparators are not evaluated), and the comparator becomes the next left
operand; an exhausted chain returns `True`. -/
def evalCompare : Nat → Value → List (CmpOp × Expr) → St → Outcome Value × St
  | 0, _, _, st => (Outcome.fuel, st)
  | _ + 1, _, [], st => (Outcome.ok (Value.bool true), st)
  | f + 1, left, (op, comp) :: rest, st =>
    match evalAst f comp st with
    | (Outcome.ok right, st1) =>
      match applyCmp op left right with
      | Option.none => (Outcome.err "TypeError: comparison not supported between these values", st1)
      | some b => if b then evalCompare f right rest st1 else (Outcome.ok (Value.bool false), st1)
    | (Outcome.err m, st1) => (Outcome.err m, st1)
    | (Outcome.fuel, st1) => (Outcome.fuel, st1)

/-- Embeds `safe_eval` (StrykeCore.py lines 122-132): strip; return a
quoted literal verbatim without parsing; otherwise parse — a parse failure
falls back to the local variable of that exact name, or to the raw text as
a string; a successful parse is handed to `eval_ast` (whose own errors
propagate uncaught). -/
def safe_eval : Nat → String → St → Outcome Value × St
  | 0, _, st => (Outcome.fuel, st)
  | f + 1, expr_text, st =>
    let t := pyStrip expr_text
    if isQuoted t then (Outcome.ok (Value.str (stripQuotes t)), st)
    else
      match parse t with
      | Option.none =>
        match alistGet st.vars t with
        | some v => (Outcome.ok v, st)
        | Option.none => (Outcome.ok (Value.str t), st)
      | some node => evalAst f node st

/-- Embeds `call_user_func` (StrykeCore.py lines 138-157): look up the
function, check arity, snapshot `env["vars"]`, increment `_call_depth`,
bind parameters over the live mapping (dynamic scope), run the body, and
— on every exit path, as the source's `finally` guarantees — restore the
snapshot and decrement `_call_depth`.  A body that finishes without a
`ReturnSignal` yields Python `None`. -/
def callUserFunc : Nat → String → List Value → St → Outcome Value × St
  | 0, _, _, st => (Outcome.fuel, st)
  | f + 1, fname, arg_values, st =>
    match alistGet st.funcs fname with
    | Option.none => (Outcome.err ("KeyError: " ++ fname), st)
    | some pb =>
      if arg_values.length ≠ pb.1.length then
        (Outcome.err (fname ++ " expects " ++ toString pb.1.length ++ " args, got " ++ toString arg_values.length), st)
      else
        let saved_vars := st.vars
        let stIn : St := {st with call_depth := st.call_depth + 1,
                                  vars := bindParams st.vars pb.1 arg_values}
        let r := bodyLoop f pb.2 0 fname stIn
        (r.1, {r.2 with vars := saved_vars, call_depth := r.2.call_depth - 1})

/-- The body-execution loop of `call_user_func`: `ReturnSignal` ends the
call with its value, an `int` result forwards the cursor, raises
propagate; falling off the end yields Python `None`. -/
def bodyLoop : Nat → List String → Nat → String → St → Outcome Value × St
  | 0, _, _, _, st => (Outcome.fuel, st)
  | f + 1, body, i, fname, st =>
    match body[i]? with
    | Option.none => (Outcome.ok Value.none, st)
    | some ln =>
      match executeLine f ln body (some i) ("<func " ++ fname ++ ">") st with
      | (Outcome.ok (Signal.ret v), st1) => (Outcome.ok v, st1)
      | (Outcome.ok (Signal.jump j), st1) => bodyLoop f body (j + 1) fname st1
      | (Outcome.ok Signal.noneSig, st1) => bodyLoop f body (i + 1) fname st1
      | (Outcome.err m, st1) => (Outcome.err m, st1)
      | (Outcome.fuel, st1) => (Outcome.fuel, st1)

/-- Embeds `execute_line` (StrykeCore.py lines 202-244).  Blank and
comment lines return `None` before the debugger check.  The debugger
pause, when triggered, applies the prompted action (`continue` leaves the
flags untouched — including an already-set `_single_step`; `step` sets
`_single_step`; `next` records `_call_depth` into `_step_over_depth` and
sets `_single_step`).  The statement patterns are then tried in source
order: `stryset`, `stryprint`, `def`, `return`, `if`, the literal `end`,
and a final catch-all `return None`.  There is no `while` branch in the
source.  In the `def`/`if` branches a missing `lines`/`idx` (the REPL
path) is the host `TypeError` from `idx + 1` on `None`. -/
def executeLine : Nat → String → List String → Option Nat → String → St → Outcome Signal × St
  | 0, _, _, _, _, st => (Outcome.fuel, st)
  | f + 1, line, lines, idx, source_name, st =>
    let stripped := pyStrip line
    if stripped = "" || startsHash stripped then (Outcome.ok Signal.noneSig, st)
    else
      let lineno := lineNoOf idx
      let st :=
        if check_debug_pause source_name lineno line st then
          let ar := debug_prompt source_name lineno line st
          if ar.1 = "step" then {ar.2 with single_step := true}
          else if ar.1 = "next" then
            {ar.2 with step_over_depth := some ar.2.call_depth, single_step := true}
          else ar.2
        else st
      match matchStryset stripped, matchKeywordRest "stryprint" stripped,
            matchDef stripped, matchKeywordRest "return" stripped,
            matchCondHeader "if" stripped with
      | some ne, _, _, _, _ =>
        match safe_eval f ne.2 st with
        | (Outcome.ok v, st1) => (Outcome.ok Signal.noneSig, {st1 with vars := alistSet st1.vars ne.1 v})
        | (Outcome.err m, st1) => (Outcome.err m, st1)
        | (Outcome.fuel, st1) => (Outcome.fuel, st1)
      | Option.none, some ex, _, _, _ =>
        match safe_eval f ex st with
        | (Outcome.ok v, st1) => (Outcome.ok Signal.noneSig, {st1 with output := st1.output ++ [v]})
        | (Outcome.err m, st1) => (Outcome.err m, st1)
        | (Outcome.fuel, st1) => (Outcome.fuel, st1)
      | Option.none, Option.none, some fp, _, _ =>
        match idx with
        | Option.none => (Outcome.err "TypeError: unsupported operand type for NoneType + int", st)
        | some i =>
          match parse_block lines (i + 1) with
          | Except.error m => (Outcome.err m, st)
          | Except.ok be =>
            (Outcome.ok (Signal.jump be.2), {st with funcs := alistSet st.funcs fp.1 (paramList fp.2, be.1)})
      | Option.none, Option.none, Option.none, some ex, _ =>
        match safe_eval f ex st with
        | (Outcome.ok v, st1) => (Outcome.ok (Signal.ret v), st1)
        | (Outcome.err m, st1) => (Outcome.err m, st1)
        | (Outcome.fuel, st1) => (Outcome.fuel, st1)
      | Option.none, Option.none, Option.none, Option.none, some condText =>
        match safe_eval f condText st with
        | (Outcome.ok cond, st1) =>
          match idx with
          | Option.none => (Outcome.err "TypeError: unsupported operand type for NoneType + int", st1)
          | some i =>
            match parse_block lines (i + 1) with
            | Except.error m => (Outcome.err m, st1)
            | Except.ok be =>
              if truthy cond then brokenIfLoop f be.1 st1
              else (Outcome.ok (Signal.jump be.2), st1)
        | (Outcome.err m, st1) => (Outcome.err m, st1)
        | (Outcome.fuel, st1) => (Outcome.fuel, st1)
      | Option.none, Option.none, Option.none, Option.none, Option.none =>
        if stripped = "end" then (Outcome.ok Signal.noneSig, st)
        else (Outcome.ok Signal.noneSig, st)

/-- The cond-true body loop of the source's `if` branch.  The three source
lines after `while i<len(block): res=execute_line(block[i], lines=block, idx=i);`
are ill-formed host code (a `continue` with no enclosing loop, a host
syntax error), so the well-formed part is the literal one-line `while`:
`i` is never advanced, so a non-empty block re-executes its first line
until the fuel runs out, and an empty block reaches the ill-formed lines
(embedded as the unbound-variable error for `res`).  No claim exercises a
true `if` condition. -/
def brokenIfLoop : Nat → List String → St → Outcome Signal × St
  | 0, _, st => (Outcome.fuel, st)
  | _ + 1, [], st => (Outcome.err "ill-formed source: continue outside loop / res unbound", st)
  | f + 1, b :: rest, st =>
    match executeLine f b (b :: rest) (some 0) "<stdin>" st with
    | (Outcome.ok _, st1) => brokenIfLoop f (b :: rest) st1
    | (Outcome.err m, st1) => (Outcome.err m, st1)
    | (Outcome.fuel, st1) => (Outcome.fuel, st1)

end

/-- The line loop of `run_file` (StrykeCore.py lines 250-255): an `int`
result forwards the cursor, a `ReturnSignal` ends the run returning its
value, raises propagate, and walking off the end returns Python `None`. -/
def runLoop : Nat → String → List String → Nat → St → Outcome (Option Value) × St
  | 0, _, _, _, st => (Outcome.fuel, st)
  | f + 1, path, lines, i, st =>
    match lines[i]? with
    | Option.none => (Outcome.ok Option.none, st)
    | some ln =>
      match executeLine parse f ln lines (some i) path st with
      | (Outcome.ok (Signal.jump j), st1) => runLoop f path lines (j + 1) st1
      | (Outcome.ok (Signal.ret v), st1) => (Outcome.ok (some v), st1)
      | (Outcome.ok Signal.noneSig, st1) => runLoop f path lines (i + 1) st1
      | (Outcome.err m, st1) => (Outcome.err m, st1)
      | (Outcome.fuel, st1) => (Outcome.fuel, st1)

/-- Embeds `run_file` (StrykeCore.py lines 246-255) on an already-read
line list (the host file read is outside the model): run the loop from
index 0.  The result is `some v` exactly when a top-level `ReturnSignal`
ended the run, and `Option.none` when the loop walked off the end. -/
def runFile (fuel : Nat) (path : String) (lines : List String) (st : St) : Outcome (Option Value) × St :=
  runLoop parse fuel path lines 0 st

end Interpreter

/-- The expression-node shapes `eval_ast` rejects: attribute access,
subscripting, lambdas, comprehensions, and calls whose callee is not a
bare name. -/
def unsupportedNode : Expr → Bool
  | Expr.attributeE _ _ => true
  | Expr.subscript _ _ => true
  | Expr.lambdaE => true
  | Expr.listComp => true
  | Expr.call f _ =>
    match f with
    | Expr.name _ => false
    | _ => true
  | _ => false

/-- Host-parser fixture: the output of `ast.parse(s, mode="eval")` on each
expression string the concrete runs below evaluate, re-traced against the
host grammar:
`"0"`, `"1"`, `"5"` are integer constants; `"x + 1"` is
`BinOp(Name, Add, Constant)`; `"x < 3"` is a one-pair comparison;
`"f()"` is a call with a bare-name callee and no arguments;
`"1 < 0 < a.b"` is a two-pair comparison chain whose second comparator is
an attribute access `Attribute(Name, b)`.  Every other string (none of
which the runs parse) maps to a parse failure. -/
def parseFixture : String → Option Expr := fun s =>
  if s = "0" then some (Expr.expression (Expr.const (Value.int 0)))
  else if s = "1" then some (Expr.expression (Expr.const (Value.int 1)))
  else if s = "5" then some (Expr.expression (Expr.const (Value.int 5)))
  else if s = "x + 1" then some (Expr.expression (Expr.binop BinOp.add (Expr.name "x") (Expr.const (Value.int 1))))
  else if s = "x < 3" then some (Expr.expression (Expr.compare (Expr.name "x") [(CmpOp.lt, Expr.const (Value.int 3))]))
  else if s = "f()" then some (Expr.expression (Expr.call (Expr.name "f") []))
  else if s = "1 < 0 < a.b" then some (Expr.expression (Expr.compare (Expr.const (Value.int 1))
      [(CmpOp.lt, Expr.const (Value.int 0)), (CmpOp.lt, Expr.attributeE (Expr.name "a") "b")]))
  else Option.none

/-- A well-formed two-level nested construct: an outer `if` block (body
starting at index 1) containing a complete inner `if` block with its own
terminator at index 4; the outer terminator is at index 6. -/
def c1lines : List String :=
  ["if (1):", "stryset a (1)", "if (2):", "stryset b (2)", "end", "stryset c (3)", "end"]

/-- A file whose `while` loop would, per the spec, run its body three
times (leaving `x = 3`). -/
def c2lines : List String :=
  ["stryset x (0)", "while (x < 3):", "stryset x (x + 1)", "end"]

/-- A file that defines `f` (body at line 2), then runs two top-level
statements, the second of which calls `f`; `f`'s body statement executes
at call depth 1. -/
def c6lines : List String :=
  ["def f():", "stryset inner (1)", "end", "stryset a (1)", "stryset b (f())"]

/-- Debugger state for the step-over scenario: a breakpoint on line 4 and
the `next` command queued as the reply to the first pause. -/
def c6st : St :=
  {initSt with bpLines := [4], debugActions := ["next"]}

/-- Dict lookup after dict update finds the updated binding. -/
theorem alistGet_alistSet {α : Type} (m : List (String × α)) (k : String) (v : α) :
    alistGet (alistSet m k v) k = some v := by
  induction m with
  | nil => simp [alistSet, alistGet]
  | cons hd tl ih =>
    obtain ⟨k', v'⟩ := hd
    by_cases h : k' = k
    · simp [alistSet, alistGet, h]
    · simp [alistSet, alistGet, h, ih]

/-- On two integer operands every comparison step succeeds and agrees with
the integer comparison table. -/
theorem applyCmp_int (op : CmpOp) (m n : Int) :
    applyCmp op (Value.int m) (Value.int n) = some (icmp op m n) := by
  cases op <;> simp [applyCmp, pyEq, toArith, icmp]

/-- C1: the spec's Block Extractor finds the matching terminator by depth
counting, so in a well-formed two-level nested construct the inner block's
terminator is never taken as the enclosing block's terminator.  The
source's `parse_block` instead stops at the first `end`: on the nested
construct `c1lines` (outer body starting at index 1) it returns the inner
block's terminator (index 4) and a body cut short of the inner block's
`end`, while the depth-counted extraction mandated by the spec returns the
outer terminator (index 6) with the entire inner block in the body. -/
theorem C1_parse_block_stops_at_first_end :
    parse_block c1lines 1
      = Except.ok (["stryset a (1)", "if (2):", "stryset b (2)"], 4) ∧
    parse_block_depth c1lines 1
      = Except.ok (["stryset a (1)", "if (2):", "stryset b (2)", "end", "stryset c (3)"], 6) :=
  ⟨rfl, rfl⟩

/-- C2: the claim says a `while (cond):` construct re-evaluates its
condition before each iteration and runs the body on each true evaluation.
The source's `execute_line` has no `while` branch: the header line matches
no pattern and is a no-op (second conjunct), so on `c2lines` the body runs
exactly once, unconditionally, leaving `x = 1` where the claimed loop
semantics would leave `x = 3`; the run completes without any diagnostic
(first conjunct). -/
theorem C2_while_header_is_noop_body_runs_once :
    (runFile parseFixture 32 "demo.stryke" c2lines initSt).1 = Outcome.ok Option.none ∧
    executeLine parseFixture 4 "while (x < 3):" c2lines (some 1) "demo.stryke" initSt
      = (Outcome.ok Signal.noneSig, initSt) ∧
    alistGet (runFile parseFixture 32 "demo.stryke" c2lines initSt).2.vars "x"
      = some (Value.int 1) :=
  ⟨rfl, rfl, rfl⟩

/-- C3: on every exit path of `call_user_func` — normal completion, a
`ReturnSignal`, a propagated failure, and even exhaustion of the modelled
fuel — the caller's `vars` mapping after the call equals its value
immediately before the call, because the `finally` restoration installs
the pre-call snapshot unconditionally. -/
theorem C3_call_user_func_restores_vars (parse : String → Option Expr) (fuel : Nat)
    (fname : String) (args : List Value) (st : St) :
    ((callUserFunc parse fuel fname args st).2).vars = st.vars := by
  cases fuel with
  | zero => rfl
  | succ f =>
    simp only [callUserFunc]
    cases halistGet : alistGet st.funcs fname with
    | none => rfl
    | some pb =>
      by_cases h : args.length ≠ pb.1.length
      · simp [h]
      · simp [h]

/-- C4 counterexample: the claim says every expression string whose parse
tree contains an attribute access fails with an error.  The string
`"1 < 0 < a.b"` parses to a comparison chain containing the attribute
access `a.b`, yet evaluation succeeds with `False`: the chain's first pair
`1 < 0` fails, and the comparison loop returns before the attribute node
is ever evaluated. -/
theorem C4_chain_short_circuit_skips_attribute :
    safe_eval parseFixture 9 "1 < 0 < a.b" initSt
      = (Outcome.ok (Value.bool false), initSt) := rfl

/-- C4 (amended): whenever evaluation actually reaches a construct outside
the restricted grammar — attribute access, subscripting, a comprehension,
a lambda, or a call whose callee is not a bare name — `eval_ast` raises
(`ValueError`, the `UnsupportedExpressionError` class of failure) without
executing the host construct or touching the state. -/
theorem C4_unsupported_construct_errors (parse : String → Option Expr) (f : Nat)
    (e : Expr) (st : St) (h : unsupportedNode e = true) :
    evalAst parse (f + 1) e st = (Outcome.err "Unsupported call expression", st) ∨
    evalAst parse (f + 1) e st = (Outcome.err "Unsupported expression type", st) := by
  cases e with
  | attributeE v a => exact Or.inr rfl
  | subscript v i => exact Or.inr rfl
  | lambdaE => exact Or.inr rfl
  | listComp => exact Or.inr rfl
  | call fe args =>
    cases fe with
    | name idn => exact Bool.noConfusion h
    | expression b => exact Or.inl rfl
    | const v => exact Or.inl rfl
    | binop op l r => exact Or.inl rfl
    | unaryop op o => exact Or.inl rfl
    | boolop ia vs => exact Or.inl rfl
    | compare l ps => exact Or.inl rfl
    | call g as => exact Or.inl rfl
    | attributeE v a => exact Or.inl rfl
    | subscript v i => exact Or.inl rfl
    | lambdaE => exact Or.inl rfl
    | listComp => exact Or.inl rfl
  | expression b => exact Bool.noConfusion h
  | const v => exact Bool.noConfusion h
  | binop op l r => exact Bool.noConfusion h
  | unaryop op o => exact Bool.noConfusion h
  | boolop ia vs => exact Bool.noConfusion h
  | compare l ps => exact Bool.noConfusion h
  | name idn => exact Bool.noConfusion h

/-- C4 witness: the attribute-access node is an unsupported construct and
evaluating it errors, state unchanged. -/
theorem C4_unsupported_construct_errors_witness :
    unsupportedNode (Expr.attributeE (Expr.name "a") "b") = true ∧
    (evalAst parseFixture 3 (Expr.attributeE (Expr.name "a") "b") initSt
        = (Outcome.err "Unsupported call expression", initSt) ∨
     evalAst parseFixture 3 (Expr.attributeE (Expr.name "a") "b") initSt
        = (Outcome.err "Unsupported expression type", initSt)) :=
  ⟨rfl, C4_unsupported_construct_errors parseFixture 2 (Expr.attributeE (Expr.name "a") "b") initSt rfl⟩

/-- C5 counterexample: the claim says a top-level `return` is discarded,
the run does not terminate successfully with the value, and a diagnostic
surfaces.  On the file `["return 5", "stryset x (1)"]` the source's
`run_file` instead stops at the `return`, yields `5` as its result, never
executes the following line, and raises nothing — the final state is the
initial state. -/
theorem C5_top_level_return_ends_run_with_value :
    runFile parseFixture 16 "demo.stryke" ["return 5", "stryset x (1)"] initSt
      = (Outcome.ok (some (Value.int 5)), initSt) := rfl

/-- C5 (amended): a top-level `return` in a file run is not discarded: the
line loop stops immediately and `run_file` returns the returned value (its
caller then ignores it); remaining lines do not execute and no diagnostic
is produced. -/
theorem C5_return_signal_stops_loop (parse : String → Option Expr) (f i : Nat)
    (path : String) (lines : List String) (ln : String) (st st1 : St) (v : Value)
    (hl : lines[i]? = some ln)
    (he : executeLine parse f ln lines (some i) path st = (Outcome.ok (Signal.ret v), st1)) :
    runLoop parse (f + 1) path lines i st = (Outcome.ok (some v), st1) := by
  simp [runLoop, hl, he]

/-- C5 witness: the one-line file `return 5` ends with result `5`. -/
theorem C5_return_signal_stops_loop_witness :
    runLoop parseFixture 5 "demo.stryke" ["return 5"] 0 initSt
      = (Outcome.ok (some (Value.int 5)), initSt) :=
  C5_return_signal_stops_loop parseFixture 4 0 "demo.stryke" ["return 5"] "return 5"
    initSt initSt (Value.int 5) rfl rfl

/-- C6: after `next` is answered at call depth 0 (recording
`_step_over_depth = 0`, second conjunct), the claim says statements inside
deeper nested calls must not trigger a step-over pause.  In the source the
pre-statement check consults only `_single_step` and the breakpoints —
never the recorded depth — so running `c6lines` pauses a third time at the
function-body statement executed at call depth 1 (first conjunct); the
final conjunct shows the check directly: it returns true at depth 1 even
though the recorded depth is 0. -/
theorem C6_step_over_pauses_inside_deeper_call :
    (runFile parseFixture 40 "demo.stryke" c6lines c6st).2.pauses
      = [("demo.stryke", 4), ("demo.stryke", 5), ("<func f>", 1)] ∧
    (runFile parseFixture 40 "demo.stryke" c6lines c6st).2.step_over_depth = some 0 ∧
    check_debug_pause "<func f>" 1 "stryset inner (1)"
        {initSt with single_step := true, step_over_depth := some 0, call_depth := 1} = true :=
  ⟨rfl, rfl, rfl⟩

/-- One-step unfolding of `evalAst` on a comparison node. -/
theorem evalAst_compare_step (parse : String → Option Expr) (f : Nat) (l : Expr)
    (pairs : List (CmpOp × Expr)) (st : St) :
    evalAst parse (f + 1) (Expr.compare l pairs) st
      = match evalAst parse f l st with
        | (Outcome.ok lv, st1) => evalCompare parse f lv pairs st1
        | other => other := rfl

/-- One-step unfolding of the comparison loop on a non-empty pair list. -/
theorem evalCompare_cons (parse : String → Option Expr) (f : Nat) (left : Value)
    (op : CmpOp) (comp : Expr) (rest : List (CmpOp × Expr)) (st : St) :
    evalCompare parse (f + 1) left ((op, comp) :: rest) st
      = match evalAst parse f comp st with
        | (Outcome.ok right, st1) =>
          match applyCmp op left right with
          | Option.none => (Outcome.err "TypeError: comparison not supported between these values", st1)
          | some b => if b then evalCompare parse f right rest st1
                      else (Outcome.ok (Value.bool false), st1)
        | (Outcome.err m, st1) => (Outcome.err m, st1)
        | (Outcome.fuel, st1) => (Outcome.fuel, st1) := rfl

/-- An exhausted comparison chain yields `True`. -/
theorem evalCompare_nil (parse : String → Option Expr) (f : Nat) (left : Value) (st : St) :
    evalCompare parse (f + 1) left [] st = (Outcome.ok (Value.bool true), st) := rfl

/-- C7: a comparison chain `a OP1 b OP2 c` over operands that evaluate to
integers (without touching the state) returns exactly the conjunction of
the two pairwise comparisons, evaluated left to right; and when the first
pair fails the chain yields `False` for any third operand whatsoever — the
short-circuit at the first failing pair. -/
theorem C7_comparison_chain (parse : String → Option Expr) (h : Nat)
    (ea eb ec : Expr) (a b c : Int) (o1 o2 : CmpOp) (st : St)
    (ha : evalAst parse (h + 3) ea st = (Outcome.ok (Value.int a), st))
    (hb : evalAst parse (h + 2) eb st = (Outcome.ok (Value.int b), st))
    (hc : evalAst parse (h + 1) ec st = (Outcome.ok (Value.int c), st)) :
    evalAst parse (h + 4) (Expr.compare ea [(o1, eb), (o2, ec)]) st
      = (Outcome.ok (Value.bool (icmp o1 a b && icmp o2 b c)), st) ∧
    (icmp o1 a b = false → ∀ ec' : Expr,
      evalAst parse (h + 4) (Expr.compare ea [(o1, eb), (o2, ec')]) st
        = (Outcome.ok (Value.bool false), st)) := by
  constructor
  · simp only [show h + 4 = (h + 3) + 1 from rfl, evalAst_compare_step, ha]
    simp only [show h + 3 = (h + 2) + 1 from rfl, evalCompare_cons, hb, applyCmp_int]
    cases h1 : icmp o1 a b with
    | false => simp
    | true =>
      simp only [if_true, Bool.true_and]
      simp only [show h + 2 = (h + 1) + 1 from rfl, evalCompare_cons, hc, applyCmp_int]
      cases h2 : icmp o2 b c with
      | false => simp
      | true =>
        simp only [if_true]
        simp only [show h + 1 = h + 0 + 1 from rfl, evalCompare_nil]
  · intro h1 ec'
    simp only [show h + 4 = (h + 3) + 1 from rfl, evalAst_compare_step, ha]
    simp only [show h + 3 = (h + 2) + 1 from rfl, evalCompare_cons, hb, applyCmp_int, h1]
    simp

/-- C7 witness: `1 < 2 < 3` evaluates to `True`. -/
theorem C7_comparison_chain_witness :
    evalAst parseFixture 4 (Expr.compare (Expr.const (Value.int 1))
        [(CmpOp.lt, Expr.const (Value.int 2)), (CmpOp.lt, Expr.const (Value.int 3))]) initSt
      = (Outcome.ok (Value.bool true), initSt) := by
  have h := (C7_comparison_chain parseFixture 0 (Expr.const (Value.int 1))
    (Expr.const (Value.int 2)) (Expr.const (Value.int 3)) 1 2 3 CmpOp.lt CmpOp.lt initSt
    rfl rfl rfl).1
  exact h

/-- C8: an expression string that is not a quoted literal and whose host
parse fails never raises: `safe_eval` returns the local variable of that
exact (stripped) name when one exists, and the stripped raw text as a
string otherwise. -/
theorem C8_parse_failure_falls_back (parse : String → Option Expr) (f : Nat)
    (text : String) (st : St)
    (hq : isQuoted (pyStrip text) = false)
    (hp : parse (pyStrip text) = Option.none) :
    (∀ v : Value, alistGet st.vars (pyStrip text) = some v →
        safe_eval parse (f + 1) text st = (Outcome.ok v, st)) ∧
    (alistGet st.vars (pyStrip text) = Option.none →
        safe_eval parse (f + 1) text st = (Outcome.ok (Value.str (pyStrip text)), st)) := by
  constructor
  · intro v hv
    simp [safe_eval, hq, hp, hv]
  · intro hv
    simp [safe_eval, hq, hp, hv]

/-- C8 witness: `hello world` does not parse, is no variable, and comes
back as the string itself. -/
theorem C8_parse_failure_falls_back_witness :
    safe_eval parseFixture 3 "hello world" initSt
      = (Outcome.ok (Value.str "hello world"), initSt) := by
  have h := (C8_parse_failure_falls_back parseFixture 2 "hello world" initSt rfl rfl).2 rfl
  exact h

/-- C9: executing `stryset name (expr)` binds the evaluated value into
`vars` and returns the continue signal, and immediately evaluating the
bare name yields exactly that value, unchanged — the identifier resolution
order consults `vars` first. -/
theorem C9_assignment_roundtrip (parse : String → Option Expr) (f : Nat)
    (line : String) (lines : List String) (idx : Option Nat) (src : String)
    (st st1 : St) (nm ex : String) (v : Value)
    (hne : pyStrip line ≠ "")
    (hnh : startsHash (pyStrip line) = false)
    (hdbg : check_debug_pause src (lineNoOf idx) line st = false)
    (hm : matchStryset (pyStrip line) = some (nm, ex))
    (hev : safe_eval parse f ex st = (Outcome.ok v, st1)) :
    executeLine parse (f + 1) line lines idx src st
      = (Outcome.ok Signal.noneSig, {st1 with vars := alistSet st1.vars nm v}) ∧
    ∀ g : Nat, evalAst parse (g + 1) (Expr.name nm) {st1 with vars := alistSet st1.vars nm v}
      = (Outcome.ok v, {st1 with vars := alistSet st1.vars nm v}) := by
  constructor
  · simp [executeLine, hne, hnh, hdbg, hm, hev]
  · intro g
    simp [evalAst, alistGet_alistSet]

/-- C9 witness: `stryset x (5)` then evaluating `x` yields `5`. -/
theorem C9_assignment_roundtrip_witness :
    executeLine parseFixture 4 "stryset x (5)" [] Option.none "<stdin>" initSt
      = (Outcome.ok Signal.noneSig, {initSt with vars := alistSet initSt.vars "x" (Value.int 5)}) ∧
    evalAst parseFixture 1 (Expr.name "x") {initSt with vars := alistSet initSt.vars "x" (Value.int 5)}
      = (Outcome.ok (Value.int 5), {initSt with vars := alistSet initSt.vars "x" (Value.int 5)}) := by
  have h := C9_assignment_roundtrip parseFixture 3 "stryset x (5)" [] Option.none "<stdin>"
    initSt initSt "x" "5" (Value.int 5) (by decide) rfl rfl rfl rfl
  exact ⟨h.1, h.2 0⟩

/-- C10: a line that is empty, whitespace-only, or whose stripped text
begins with `#` returns the continue signal and leaves the entire state —
variables, functions, and all debugger state including the pause trace —
untouched, for every state, in particular states with a matching
breakpoint or single-step active: the blank/comment check precedes the
pause check. -/
theorem C10_blank_or_comment_is_inert (parse : String → Option Expr) (f : Nat)
    (line : String) (lines : List String) (idx : Option Nat) (src : String) (st : St)
    (h : pyStrip line = "" ∨ startsHash (pyStrip line) = true) :
    executeLine parse (f + 1) line lines idx src st = (Outcome.ok Signal.noneSig, st) := by
  rcases h with h | h <;> simp [executeLine, h]

/-- C10 witness: a comment line under an active single-step mode and a
breakpoint registered on its own line number still executes as a no-op
with no pause recorded. -/
theorem C10_blank_or_comment_is_inert_witness :
    executeLine parseFixture 5 "# comment" [] (some 0) "demo.stryke"
        {initSt with single_step := true, bpLines := [1]}
      = (Outcome.ok Signal.noneSig, {initSt with single_step := true, bpLines := [1]}) :=
  C10_blank_or_comment_is_inert parseFixture 4 "# comment" [] (some 0) "demo.stryke"
    {initSt with single_step := true, bpLines := [1]} (Or.inr rfl)
